import Mathlib

/-
Shallow embedding of the webauthn-rp relying-party library
(src/webauthn_rp/types.py, src/webauthn_rp/attesters.py,
src/webauthn_rp/registrars.py).

Byte strings are lists of naturals; Python exceptions are modelled with
an explicit error monad (Except).  The external cryptography library
(X.509 parsing and signature verification) is modelled as an abstract
oracle, as the spec treats it as an assumed-correct dependency.
-/

set_option autoImplicit false

/-- Byte strings (Python bytes) as lists of naturals. -/
abbrev Bytes := List Nat

/-- Errors surfaced by the library.  The first four constructors model the
error taxonomy of webauthn_rp.errors (that module is imported by
attesters.py and registrars.py; the class bodies are plain exception
subclasses carrying a message).  The last two model the Python built-in
exceptions TypeError and AttributeError, which the code can also raise
dynamically. -/
inductive PyErr where
  | unimplementedError (msg : String)
  | validationError (msg : String)
  | attestationError (msg : String)
  | verificationError (msg : String)
  | typeError (msg : String)
  | attributeError (msg : String)
deriving DecidableEq

/-- Errors raised by enumeration construction and indexing:
Python ValueError (enum call with an unregistered value) and
KeyError (enum indexing misses, and the explicit invalid-key branch of
NameValueEnumsContainer). -/
inductive EnumErr where
  | valueError (msg : String)
  | keyError (msg : String)
deriving DecidableEq

/-- The runtime kind of a key passed to a dual name/value enumeration.
NameValueEnumsContainer dispatches on the exact runtime type of its
argument: type(value) is int, then type(value) is str, else the
invalid-key branch.  A Python bool is its own type (bool), so it takes
the else branch even though bool subclasses int; floats and any other
types also take the else branch. -/
inductive PyKey where
  | intKey (n : Int)
  | strKey (s : String)
  | boolKey (b : Bool)
  | floatKey (repr : String)
deriving DecidableEq

/-- String rendering of a key, as used by the format call in the
invalid-key message and by the KeyError payload. -/
def pyKeyRepr : PyKey → String
  | .intKey n => toString n
  | .strKey s => s
  | .boolKey true => "True"
  | .boolKey false => "False"
  | .floatKey r => r

/-- A member of one of the dual name/value enumerations: either a member
of the nested Name enum (string-valued) or of the nested Value enum
(integer-valued).  Either way the member carries its Python identifier. -/
inductive DualMember where
  | nameMem (ident : String) (value : String)
  | valueMem (ident : String) (value : Int)
deriving DecidableEq

/-- Decidable equality of computation results, used to evaluate the
finite enumeration statements by decision procedure. -/
instance {ε α : Type} [DecidableEq ε] [DecidableEq α] : DecidableEq (Except ε α)
  | .ok a, .ok b =>
    if h : a = b then .isTrue (congrArg Except.ok h)
    else .isFalse (fun he => h (Except.ok.inj he))
  | .error a, .error b =>
    if h : a = b then .isTrue (congrArg Except.error h)
    else .isFalse (fun he => h (Except.error.inj he))
  | .ok _, .error _ => .isFalse (fun he => Except.noConfusion he)
  | .error _, .ok _ => .isFalse (fun he => Except.noConfusion he)

/-- Python member attribute .name: the identifier of the member, for both
the Name and the Value enums. -/
def DualMember.name : DualMember → String
  | .nameMem i _ => i
  | .valueMem i _ => i

/-- A dual enumeration declared with metaclass NameValueEnumsContainer:
a list of entries (Python identifier, Name-enum value, Value-enum value).
The nested Name and Value enums list the same identifiers. -/
structure DualEnum where
  entries : List (String × String × Int)
deriving DecidableEq

/-- The member table of the nested Name enum: identifier and string value. -/
def DualEnum.nameMembers (E : DualEnum) : List (String × String) :=
  E.entries.map (fun e => (e.1, e.2.1))

/-- The member table of the nested Value enum: identifier and integer value. -/
def DualEnum.valueMembers (E : DualEnum) : List (String × Int) :=
  E.entries.map (fun e => (e.1, e.2.2))

/-- Python Enum class call (EnumMeta call): looks the member up by its
*value*; an unregistered value raises ValueError. -/
def pyEnumCall {V : Type} [BEq V] (members : List (String × V)) (v : V) :
    Except EnumErr (String × V) :=
  match members.find? (fun m => m.2 == v) with
  | some m => .ok m
  | none => .error (.valueError ("is not a valid enumeration value"))

/-- Python Enum class indexing (EnumMeta getitem): looks the member up by
its *name* in the member map, whose keys are the member identifiers
(strings).  A non-string key therefore never matches any member name and
the lookup raises KeyError carrying the key. -/
def pyEnumGetitem {V : Type} (members : List (String × V)) (key : PyKey) :
    Except EnumErr (String × V) :=
  match key with
  | .strKey s =>
    match members.find? (fun m => m.1 == s) with
    | some m => .ok m
    | none => .error (.keyError s)
  | k => .error (.keyError (pyKeyRepr k))

/-- NameValueEnumsContainer.__call__ (types.py lines 23-29): an int key is
passed to the Value enum call, a str key to the Name enum call, and any
other runtime type raises KeyError with the invalid-key message. -/
def NameValueEnumsContainer.call (E : DualEnum) : PyKey → Except EnumErr DualMember
  | .intKey n => (pyEnumCall E.valueMembers n).map (fun m => .valueMem m.1 m.2)
  | .strKey s => (pyEnumCall E.nameMembers s).map (fun m => .nameMem m.1 m.2)
  | k => .error (.keyError ("Invalid key " ++ pyKeyRepr k))

/-- NameValueEnumsContainer.__getitem__ (types.py lines 31-37): an int key
is passed to the Value enum indexing, a str key to the Name enum indexing,
and any other runtime type raises KeyError with the invalid-key message. -/
def NameValueEnumsContainer.getitem (E : DualEnum) : PyKey → Except EnumErr DualMember
  | .intKey n => (pyEnumGetitem E.valueMembers (.intKey n)).map (fun m => .valueMem m.1 m.2)
  | .strKey s => (pyEnumGetitem E.nameMembers (.strKey s)).map (fun m => .nameMem m.1 m.2)
  | k => .error (.keyError ("Invalid key " ++ pyKeyRepr k))

/-- COSEAlgorithmIdentifier (types.py lines 214-242). -/
def COSEAlgorithmIdentifier : DualEnum :=
  ⟨[("ES256", "ES256", -7), ("ES384", "ES384", -35), ("ES512", "ES512", -36),
    ("EDDSA", "EdDSA", -8)]⟩

/-- COSEKeyType (types.py lines 1133-1158). -/
def COSEKeyType : DualEnum :=
  ⟨[("OKP", "OKP", 1), ("EC2", "EC2", 2), ("SYMMETRIC", "Symmetric", 4)]⟩

/-- COSEKeyOperation (types.py lines 1161-1211). -/
def COSEKeyOperation : DualEnum :=
  ⟨[("SIGN", "sign", 1), ("VERIFY", "verify", 2), ("ENCRYPT", "encrypt", 3),
    ("DECRYPT", "decrypt", 4), ("WRAP_KEY", "wrap key", 5),
    ("UNWRAP_KEY", "unwrap key", 6), ("DERIVE_KEY", "derive key", 7),
    ("DERIVE_BITS", "derive bits", 8), ("MAC_CREATE", "MAC create", 9),
    ("MAC_VERIFY", "MAC verify", 10)]⟩

/-- EC2KeyType (types.py lines 1214-1237). -/
def EC2KeyType : DualEnum :=
  ⟨[("P_256", "P-256", 1), ("P_384", "P-384", 2), ("P_521", "P-521", 3)]⟩

/-- OKPKeyType (types.py lines 1240-1260). -/
def OKPKeyType : DualEnum :=
  ⟨[("ED25519", "Ed25519", 6), ("ED448", "Ed448", 7)]⟩

/-- The five enumerations declared with metaclass NameValueEnumsContainer. -/
def dualNameValueEnums : List DualEnum :=
  [COSEAlgorithmIdentifier, COSEKeyType, COSEKeyOperation, EC2KeyType, OKPKeyType]

/-- PublicKeyCredentialType (types.py lines 164-180). -/
inductive PublicKeyCredentialType where
  | PUBLIC_KEY
deriving DecidableEq

/-- AuthenticatorTransport (types.py lines 182-211). -/
inductive AuthenticatorTransport where
  | USB | NFC | BLE | INTERNAL
deriving DecidableEq

/-- AuthenticatorAttachment (types.py lines 301-324). -/
inductive AuthenticatorAttachment where
  | PLATFORM | CROSS_PLATFORM
deriving DecidableEq

/-- AttestationConveyancePreference (types.py lines 327-357). -/
inductive AttestationConveyancePreference where
  | NONE | INDIRECT | DIRECT
deriving DecidableEq

/-- UserVerificationRequirement (types.py lines 360-385). -/
inductive UserVerificationRequirement where
  | REQUIRED | PREFERRED | DISCOURAGED
deriving DecidableEq

/-- CredentialMediationRequirement (types.py lines 839-865). -/
inductive CredentialMediationRequirement where
  | SILENT | OPTIONAL | REQUIRED
deriving DecidableEq

/-- TokenBindingStatus (types.py lines 1035-1052). -/
inductive TokenBindingStatus where
  | SUPPORTED | PRESENT
deriving DecidableEq

/-- AttestationStatementFormatIdentifier (types.py lines 1376-1382). -/
inductive AttestationStatementFormatIdentifier where
  | PACKED | TPM | ANDROID_KEY | ANDROID_SAFETYNET | FIDO_U2F | NONE
deriving DecidableEq

/-- AttestationType (types.py lines 1385-1391). -/
inductive AttestationType where
  | BASIC | ATTCA | ECDAA | SELF | NONE | UNCERTAIN
deriving DecidableEq

/-- PublicKeyCredentialRpEntity (types.py lines 74-106), with the fields
inherited from PublicKeyCredentialEntity flattened in. -/
structure PublicKeyCredentialRpEntity where
  name : String
  icon : Option String
  id : String

/-- PublicKeyCredentialUserEntity (types.py lines 109-161), with the fields
inherited from PublicKeyCredentialEntity flattened in. -/
structure PublicKeyCredentialUserEntity where
  name : String
  icon : Option String
  id : Bytes
  display_name : String

/-- PublicKeyCredentialParameters (types.py lines 245-266).  The alg field
holds a member of a dual enumeration. -/
structure PublicKeyCredentialParameters where
  type : PublicKeyCredentialType
  alg : DualMember

/-- PublicKeyCredentialDescriptor (types.py lines 269-298). -/
structure PublicKeyCredentialDescriptor where
  type : PublicKeyCredentialType
  id : Bytes
  transports : Option (List AuthenticatorTransport)

/-- TxAuthGenericArg (types.py lines 388-402). -/
structure TxAuthGenericArg where
  content_type : String
  content : Bytes

/-- Coordinates (types.py lines 405-462). -/
structure Coordinates where
  latitude : Float
  longitude : Float
  altitude : Option Float
  accuracy : Float
  altitude_accuracy : Option Float
  heading : Option Float
  speed : Option Float

/-- AuthenticatorBiometricPerfBounds (types.py lines 472-488). -/
structure AuthenticatorBiometricPerfBounds where
  FAR : Float
  FRR : Float

/-- AuthenticationExtensionsClientInputs (types.py lines 554-611). -/
structure AuthenticationExtensionsClientInputs where
  appid : Option String
  tx_auth_simple : Option String
  tx_auth_generic : Option TxAuthGenericArg
  authn_sel : Option (List Bytes)
  exts : Option Bool
  uvi : Option Bool
  loc : Option Bool
  uvm : Option Bool
  biometric_perf_bounds : Option AuthenticatorBiometricPerfBounds

/-- AuthenticationExtensionsClientOutputs (types.py lines 614-666). -/
structure AuthenticationExtensionsClientOutputs where
  appid : Option Bool
  tx_auth_simple : Option String
  tx_auth_generic : Option Bytes
  authn_sel : Option Bool
  exts : Option (List String)
  uvi : Option Bytes
  loc : Option Coordinates
  uvm : Option (List (List Int))
  biometric_perf_bounds : Option Bool

/-- AuthenticatorSelectionCriteria (types.py lines 669-702). -/
structure AuthenticatorSelectionCriteria where
  authenticator_attachment : Option AuthenticatorAttachment
  require_resident_key : Bool
  user_verification : UserVerificationRequirement

/-- PublicKeyCredentialCreationOptions (types.py lines 705-767). -/
structure PublicKeyCredentialCreationOptions where
  rp : PublicKeyCredentialRpEntity
  user : PublicKeyCredentialUserEntity
  challenge : Bytes
  pub_key_cred_params : List PublicKeyCredentialParameters
  timeout : Option Int
  exclude_credentials : Option (List PublicKeyCredentialDescriptor)
  authenticator_selection : Option AuthenticatorSelectionCriteria
  attestation : AttestationConveyancePreference
  extensions : Option AuthenticationExtensionsClientInputs

/-- PublicKeyCredentialRequestOptions (types.py lines 770-818). -/
structure PublicKeyCredentialRequestOptions where
  challenge : Bytes
  timeout : Option Int
  rp_id : Option String
  allow_credentials : Option (List PublicKeyCredentialDescriptor)
  user_verification : Option UserVerificationRequirement
  extensions : Option AuthenticationExtensionsClientInputs

/-- CredentialCreationOptions (types.py lines 821-836). -/
structure CredentialCreationOptions where
  public_key : PublicKeyCredentialCreationOptions

/-- CredentialRequestOptions (types.py lines 868-891). -/
structure CredentialRequestOptions where
  mediation : CredentialMediationRequirement
  public_key : PublicKeyCredentialRequestOptions

/-- AuthenticatorAttestationResponse (types.py lines 912-942), with the
inherited client_data_JSON field flattened in. -/
structure AuthenticatorAttestationResponse where
  client_data_JSON : Bytes
  attestation_object : Bytes

/-- AuthenticatorAssertionResponse (types.py lines 945-976), with the
inherited client_data_JSON field flattened in. -/
structure AuthenticatorAssertionResponse where
  client_data_JSON : Bytes
  authenticator_data : Bytes
  signature : Bytes
  user_handle : Option Bytes

/-- AuthenticatorResponse (types.py lines 894-909) and its two concrete
subclasses, as a tagged union over the runtime class. -/
inductive AuthenticatorResponse where
  | base (client_data_JSON : Bytes)
  | attestation (r : AuthenticatorAttestationResponse)
  | assertion (r : AuthenticatorAssertionResponse)

/-- PublicKeyCredential (types.py lines 1000-1032), with the fields
inherited from Credential flattened in. -/
structure PublicKeyCredential where
  id : String
  type : String
  raw_id : Bytes
  response : AuthenticatorResponse

/-- CredentialPublicKey (types.py lines 1263-1301): the shared COSE key
fields. -/
structure CredentialPublicKeyFields where
  kty : DualMember
  kid : Option Bytes
  alg : Option DualMember
  key_ops : Option (List DualMember)
  base_IV : Option Bytes

/-- EC2CredentialPublicKey (types.py lines 1304-1326). -/
structure EC2CredentialPublicKey extends CredentialPublicKeyFields where
  x : Bytes
  y : Bytes
  crv : DualMember

/-- OKPCredentialPublicKey (types.py lines 1329-1349). -/
structure OKPCredentialPublicKey extends CredentialPublicKeyFields where
  crv : DualMember
  x : Bytes

/-- The credential public key hierarchy as a tagged union over the runtime
class: the base class or one of its two concrete subclasses. -/
inductive CredentialPublicKey where
  | base (k : CredentialPublicKeyFields)
  | ec2 (k : EC2CredentialPublicKey)
  | okp (k : OKPCredentialPublicKey)

/-- AttestedCredentialData (types.py lines 1352-1362). -/
structure AttestedCredentialData where
  aaguid : Bytes
  credential_id_length : Int
  credential_id : Bytes
  credential_public_key : Option CredentialPublicKey
  extensions : Option AuthenticationExtensionsClientOutputs

/-- AuthenticatorData (types.py lines 1365-1373). -/
structure AuthenticatorData where
  rp_id_hash : Bytes
  flags : Int
  sign_count : Int
  attested_credential_data : Option AttestedCredentialData

/-- Elliptic curves distinguished by the attesters: SECP256R1 is the only
curve tested with isinstance; the others stand for any different curve
object the cryptography library can report. -/
inductive ECCurve where
  | secp256r1 | secp384r1 | secp521r1 | otherCurve (name : String)
deriving DecidableEq

/-- A public key as surfaced by the external cryptography library:
an elliptic-curve key (with its curve and raw coordinates), an Ed25519 or
Ed448 key, or an RSA key.  Key equality is semantic, per the capability
the spec requires of the primitives library. -/
inductive CertPublicKey where
  | ec (curve : ECCurve) (x : Bytes) (y : Bytes)
  | ed25519 (data : Bytes)
  | ed448 (data : Bytes)
  | rsa (data : Bytes)
deriving DecidableEq

/-- Whether isinstance(pk, EllipticCurvePublicKey) holds. -/
def CertPublicKey.isEllipticCurve : CertPublicKey → Bool
  | .ec _ _ _ => true
  | _ => false

/-- Whether isinstance(pk.curve, SECP256R1) holds. -/
def CertPublicKey.curveIsSecp256r1 : CertPublicKey → Bool
  | .ec .secp256r1 _ _ => true
  | _ => false

/-- An X.509 certificate as surfaced by the external cryptography library:
only its public key is consulted by the attesters. -/
structure Certificate where
  public_key : CertPublicKey
deriving DecidableEq

/-- TrustedPath = Optional[Sequence[Certificate]] (types.py line 14). -/
abbrev TrustedPath := Option (List Certificate)

/-- Hash algorithms passed to the signature-verification primitive. -/
inductive HashAlg where
  | sha256 | sha384 | sha512
deriving DecidableEq

/-- The external cryptography library, as an abstract oracle: PEM X.509
certificate parsing, and signature verification by a public key over data
with an optional hash algorithm (none models the EdDSA verify call that
takes no hash argument).  A false verification result models the
InvalidSignature exception. -/
structure Crypto where
  load_pem_x509_certificate : Bytes → Except PyErr Certificate
  verify : CertPublicKey → Bytes → Bytes → Option HashAlg → Bool

/-- An element of an x5c sequence at runtime.  The type annotations in
types.py say Sequence[bytes], but Python does not enforce them: the
android-key attester calls the certificate method public_key() on the
element, which only a parsed Certificate object provides, while the
fido-u2f attester passes the element to the PEM loader, which requires
bytes. -/
inductive X5CElem where
  | bytes (b : Bytes)
  | cert (c : Certificate)

/-- Calling the method public_key() on an x5c element: only a Certificate
object has it; bytes raise AttributeError. -/
def X5CElem.public_key : X5CElem → Except PyErr CertPublicKey
  | .cert c => .ok c.public_key
  | .bytes _ => .error (.attributeError ("bytes object has no attribute public_key"))

/-- Passing an x5c element to load_pem_x509_certificate: the loader
requires bytes. -/
def load_pem_elem (C : Crypto) : X5CElem → Except PyErr Certificate
  | .bytes b => C.load_pem_x509_certificate b
  | .cert _ => .error (.typeError ("load_pem_x509_certificate expects bytes"))

/-- AttestationStatement (types.py lines 1394-1399): the base class, whose
two fields default to None. -/
structure AttestationStatementBase where
  alg : Option DualMember
  sig : Option Bytes

/-- PackedAttestationStatement (types.py lines 1402-1405). -/
structure PackedAttestationStatement where
  alg : DualMember
  sig : Bytes

/-- PackedX509AttestationStatement (types.py lines 1408-1413). -/
structure PackedX509AttestationStatement where
  alg : DualMember
  sig : Bytes
  x5c : List X5CElem

/-- PackedECDAAAttestationStatement (types.py lines 1416-1421). -/
structure PackedECDAAAttestationStatement where
  alg : DualMember
  sig : Bytes
  ecdaa_key_id : Bytes

/-- TPMAttestationStatement (types.py lines 1424-1432). -/
structure TPMAttestationStatement where
  alg : DualMember
  sig : Bytes
  ver : String
  cert_info : Bytes
  pub_area : Bytes

/-- TPMX509AttestationStatement (types.py lines 1435-1442). -/
structure TPMX509AttestationStatement extends TPMAttestationStatement where
  x5c : List X5CElem

/-- TPMECDAAAttestationStatement (types.py lines 1445-1452). -/
structure TPMECDAAAttestationStatement extends TPMAttestationStatement where
  ecdaa_key_id : Bytes

/-- AndroidKeyAttestationStatement (types.py lines 1455-1461). -/
structure AndroidKeyAttestationStatement where
  alg : DualMember
  sig : Bytes
  x5c : List X5CElem

/-- AndroidSafetyNetAttestationStatement (types.py lines 1464-1471). -/
structure AndroidSafetyNetAttestationStatement where
  alg : DualMember
  sig : Bytes
  ver : String
  response : Bytes

/-- NoneAttestationStatement (types.py lines 1483-1484): inherits the two
optional base fields and adds nothing. -/
structure NoneAttestationStatement where
  alg : Option DualMember
  sig : Option Bytes

/-- FIDOU2FAttestationStatement (types.py lines 1474-1480). -/
structure FIDOU2FAttestationStatement where
  alg : DualMember
  sig : Bytes
  x5c : List X5CElem

/-- The attestation statement hierarchy as a tagged union over the runtime
class, which is what functools.singledispatch dispatches on. -/
inductive AttestationStatement where
  | baseStmt (s : AttestationStatementBase)
  | packed (s : PackedAttestationStatement)
  | packedX509 (s : PackedX509AttestationStatement)
  | packedECDAA (s : PackedECDAAAttestationStatement)
  | tpm (s : TPMAttestationStatement)
  | tpmX509 (s : TPMX509AttestationStatement)
  | tpmECDAA (s : TPMECDAAAttestationStatement)
  | androidKey (s : AndroidKeyAttestationStatement)
  | androidSafetyNet (s : AndroidSafetyNetAttestationStatement)
  | fidoU2F (s : FIDOU2FAttestationStatement)
  | noneStmt (s : NoneAttestationStatement)

/-- AttestationObject (types.py lines 1487-1510). -/
structure AttestationObject where
  auth_data : AuthenticatorData
  fmt : AttestationStatementFormatIdentifier
  att_stmt : AttestationStatement

/-- A value flowing through the fido-u2f payload concatenation at runtime:
either a byte string or the AttestedCredentialData object that line 67 of
attesters.py binds to the local variable credential_id. -/
inductive PyVal where
  | bytes (b : Bytes)
  | acdObj (a : AttestedCredentialData)

/-- Python + on a bytes left operand: concatenation when the right operand
is also bytes, and TypeError otherwise (bytes does not concatenate with an
arbitrary object). -/
def pyBytesAdd : PyVal → PyVal → Except PyErr Bytes
  | .bytes a, .bytes b => .ok (a ++ b)
  | .bytes _, .acdObj _ =>
    .error (.typeError ("cannot concatenate AttestedCredentialData to bytes"))
  | .acdObj _, _ =>
    .error (.typeError ("unsupported operand type for +: AttestedCredentialData"))

/-- Reading the attribute x of a credential public key value, as in
credential_public_key.x (attesters.py line 64): None and the base class
have no such attribute. -/
def pyAttrX : Option CredentialPublicKey → Except PyErr Bytes
  | none => .error (.attributeError ("NoneType object has no attribute x"))
  | some (.ec2 k) => .ok k.x
  | some (.okp k) => .ok k.x
  | some (.base _) =>
    .error (.attributeError ("CredentialPublicKey object has no attribute x"))

/-- Reading the attribute y of a credential public key value, as in
credential_public_key.y (attesters.py line 64): only the EC2 subclass
defines it. -/
def pyAttrY : Option CredentialPublicKey → Except PyErr Bytes
  | none => .error (.attributeError ("NoneType object has no attribute y"))
  | some (.ec2 k) => .ok k.y
  | some _ => .error (.attributeError ("object has no attribute y"))

/-- Modelled from the spec: the converter module webauthn_rp.converters is
imported by attesters.py but is not under src/; section 4.4 of the spec
describes its single member cryptography_public_key.  For an EC2 key it
selects the named curve from crv (P-256, P-384, P-521) and builds the
elliptic-curve public key from the x and y coordinates; for an OKP key it
selects Ed25519 or Ed448 from crv and builds the key from x; any other
variant or unsupported curve fails with a validation error.  The argument
may also be None at the call site in attest_android_key (the field is
optional), which is likewise not a supported variant. -/
def cryptography_public_key : Option CredentialPublicKey → Except PyErr CertPublicKey
  | some (.ec2 k) =>
    if k.crv.name == "P_256" then .ok (.ec .secp256r1 k.x k.y)
    else if k.crv.name == "P_384" then .ok (.ec .secp384r1 k.x k.y)
    else if k.crv.name == "P_521" then .ok (.ec .secp521r1 k.x k.y)
    else .error (.validationError ("Unsupported EC2 curve"))
  | some (.okp k) =>
    if k.crv.name == "ED25519" then .ok (.ed25519 k.x)
    else if k.crv.name == "ED448" then .ok (.ed448 k.x)
    else .error (.validationError ("Unsupported OKP curve"))
  | some (.base _) => .error (.validationError ("Unsupported key type"))
  | none => .error (.validationError ("Unsupported key type"))

/-- The Python repr of the concrete class of an attestation statement, as
produced by the format call in the unimplemented-verification message. -/
def AttestationStatement.typeRepr : AttestationStatement → String
  | .baseStmt _ => "<class webauthn_rp.types.AttestationStatement>"
  | .packed _ => "<class webauthn_rp.types.PackedAttestationStatement>"
  | .packedX509 _ => "<class webauthn_rp.types.PackedX509AttestationStatement>"
  | .packedECDAA _ => "<class webauthn_rp.types.PackedECDAAAttestationStatement>"
  | .tpm _ => "<class webauthn_rp.types.TPMAttestationStatement>"
  | .tpmX509 _ => "<class webauthn_rp.types.TPMX509AttestationStatement>"
  | .tpmECDAA _ => "<class webauthn_rp.types.TPMECDAAAttestationStatement>"
  | .androidKey _ => "<class webauthn_rp.types.AndroidKeyAttestationStatement>"
  | .androidSafetyNet _ => "<class webauthn_rp.types.AndroidSafetyNetAttestationStatement>"
  | .fidoU2F _ => "<class webauthn_rp.types.FIDOU2FAttestationStatement>"
  | .noneStmt _ => "<class webauthn_rp.types.NoneAttestationStatement>"

/-- Whether the runtime class of the statement has a handler registered on
the attest single-dispatcher (attesters.py lines 39, 80, 121): exactly
FIDOU2FAttestationStatement, AndroidKeyAttestationStatement and
NoneAttestationStatement are registered. -/
def AttestationStatement.isRegistered : AttestationStatement → Bool
  | .fidoU2F _ => true
  | .androidKey _ => true
  | .noneStmt _ => true
  | _ => false

/-- attest_fido_u2f (attesters.py lines 39-77).  The attribute chain
att_obj.auth_data.attested_credential_data is read on line 62 and again on
line 67; both reads see the same value, so the embedding matches on it
once.  Line 67 binds the enclosing AttestedCredentialData object itself
(not its credential_id field) to the local variable credential_id, so the
byte concatenation on lines 68-70 receives a non-bytes operand. -/
def attest_fido_u2f (C : Crypto) (att_stmt : FIDOU2FAttestationStatement)
    (att_obj : AttestationObject) (auth_data : Bytes) (client_data_hash : Bytes) :
    Except PyErr (Option (AttestationType × TrustedPath)) :=
  if att_stmt.x5c.length ≠ 1 then
    .error (.validationError
      ("FIDO U2F verification failed: must have a single X.509 certificate"))
  else
    match load_pem_elem C (att_stmt.x5c.getD 0 (.bytes [])) with
    | .error e => .error e
    | .ok att_cert_x509 =>
      let att_cert_x509_pk := att_cert_x509.public_key
      if ¬ att_cert_x509_pk.isEllipticCurve then
        .error (.validationError
          ("FIDO U2F verification failed: must use an Elliptic Curve Public Key"))
      else if ¬ att_cert_x509_pk.curveIsSecp256r1 then
        .error (.validationError
          ("FIDO U2F verification failed: must use an Elliptic Curve Public Key"))
      else
        match att_obj.auth_data.attested_credential_data with
        | none =>
          .error (.attributeError
            ("NoneType object has no attribute credential_public_key"))
        | some acd =>
          match pyAttrX acd.credential_public_key with
          | .error e => .error e
          | .ok xb =>
            match pyAttrY acd.credential_public_key with
            | .error e => .error e
            | .ok yb =>
              let public_key_u2f : Bytes := [4] ++ (xb ++ yb)
              let rp_id_hash := att_obj.auth_data.rp_id_hash
              let credential_id : PyVal := .acdObj acd
              match pyBytesAdd (.bytes [0]) (.bytes rp_id_hash) with
              | .error e => .error e
              | .ok s1 =>
                match pyBytesAdd (.bytes client_data_hash) credential_id with
                | .error e => .error e
                | .ok s2 =>
                  match pyBytesAdd (.bytes s2) (.bytes public_key_u2f) with
                  | .error e => .error e
                  | .ok s3 =>
                    match pyBytesAdd (.bytes s1) (.bytes s3) with
                    | .error e => .error e
                    | .ok verification_data =>
                      if C.verify att_cert_x509_pk att_stmt.sig verification_data
                          (some .sha256) then
                        .ok (some (.UNCERTAIN, some [att_cert_x509]))
                      else
                        .error (.verificationError
                          ("FIDO U2F verification failed: invalid signature"))

/-- attest_android_key (attesters.py lines 80-117).  The function body ends
after the public-key comparison with no return statement, so a call that
passes every check returns the Python value None (modelled as .ok none)
instead of a pair. -/
def attest_android_key (C : Crypto) (att_stmt : AndroidKeyAttestationStatement)
    (att_obj : AttestationObject) (auth_data : Bytes) (client_data_hash : Bytes) :
    Except PyErr (Option (AttestationType × TrustedPath)) :=
  if att_stmt.x5c.length == 0 then
    .error (.validationError ("Must have at least 1 X509 certificate"))
  else
    match (att_stmt.x5c.getD 0 (.bytes [])).public_key with
    | .error e => .error e
    | .ok cred_cert_pk =>
      let algName := att_stmt.alg.name
      if algName == "ES256" ∨ algName == "ES384" ∨ algName == "ES512" ∨
          algName == "EDDSA" then
        let hash_algorithm : Option HashAlg :=
          if algName == "ES256" then some .sha256
          else if algName == "ES384" then some .sha384
          else if algName == "ES512" then some .sha512
          else none
        let verification_data := auth_data ++ client_data_hash
        if C.verify cred_cert_pk att_stmt.sig verification_data hash_algorithm then
          match att_obj.auth_data.attested_credential_data with
          | none =>
            .error (.attributeError
              ("NoneType object has no attribute credential_public_key"))
          | some acd =>
            match cryptography_public_key acd.credential_public_key with
            | .error e => .error e
            | .ok cpk =>
              if cpk ≠ cred_cert_pk then
                .error (.validationError
                  ("Certificate public key in attestation statement must match the provided credential public key"))
              else
                .ok none
        else
          .error (.verificationError
            ("Android Key verification failed: invalid signature"))
      else
        .error (.validationError
          ("Unsupported hashing algorithm " ++ algName))

/-- attest_none (attesters.py lines 121-127). -/
def attest_none (C : Crypto) (att_stmt : NoneAttestationStatement)
    (att_obj : AttestationObject) (auth_data : Bytes) (client_data_hash : Bytes) :
    Except PyErr (Option (AttestationType × TrustedPath)) :=
  .ok (some (.NONE, none))

/-- attest (attesters.py lines 29-36 plus the three registrations): a
single-dispatcher on the runtime class of the statement.  Unregistered
classes fall through to the base implementation, which raises
UnimplementedError naming the concrete type. -/
def attest (C : Crypto) (att_stmt : AttestationStatement)
    (att_obj : AttestationObject) (auth_data : Bytes) (client_data_hash : Bytes) :
    Except PyErr (Option (AttestationType × TrustedPath)) :=
  match att_stmt with
  | .fidoU2F s => attest_fido_u2f C s att_obj auth_data client_data_hash
  | .androidKey s => attest_android_key C s att_obj auth_data client_data_hash
  | .noneStmt s => attest_none C s att_obj auth_data client_data_hash
  | s => .error (.unimplementedError (s.typeRepr ++ " verification unimplemented"))

/-- AttestationStatement.__init__ (types.py lines 1395-1399) is declared
keyword-only: besides self it accepts no positional arguments.  The
extra_pos list carries any extra positional arguments a caller passes;
a non-empty list makes the call raise TypeError, as Python does for a
signature of the form def init(self, *, ...). -/
def AttestationStatementBase.init (extra_pos : List Unit)
    (alg : Option DualMember) (sig : Option Bytes) :
    Except PyErr AttestationStatementBase :=
  if extra_pos.length ≠ 0 then
    .error (.typeError ("init takes 1 positional argument but more were given"))
  else
    .ok ⟨alg, sig⟩

/-- FIDOU2FAttestationStatement.__init__ (types.py lines 1476-1480):
calls super().__init__(alg=alg, sig=sig) with keyword arguments only. -/
def FIDOU2FAttestationStatement.init (extra_pos : List Unit)
    (alg : DualMember) (sig : Bytes) (x5c : List X5CElem) :
    Except PyErr FIDOU2FAttestationStatement :=
  match AttestationStatementBase.init [] (some alg) (some sig) with
  | .error e => .error e
  | .ok _ =>
    if extra_pos.length ≠ 0 then
      .error (.typeError ("init takes 1 positional argument but more were given"))
    else
      .ok ⟨alg, sig, x5c⟩

/-- TPMAttestationStatement.__init__ (types.py lines 1426-1432): declared
keyword-only (def init(self, *, alg, sig, ver, cert_info, pub_area)); it
calls super().__init__(alg=alg, sig=sig) with keywords only. -/
def TPMAttestationStatement.init (extra_pos : List Unit)
    (alg : DualMember) (sig : Bytes) (ver : String)
    (cert_info : Bytes) (pub_area : Bytes) :
    Except PyErr TPMAttestationStatement :=
  if extra_pos.length ≠ 0 then
    .error (.typeError ("init takes 1 positional argument but more were given"))
  else
    match AttestationStatementBase.init [] (some alg) (some sig) with
    | .error e => .error e
    | .ok _ => .ok ⟨alg, sig, ver, cert_info, pub_area⟩

/-- TPMX509AttestationStatement.__init__ (types.py lines 1437-1442): it
calls super().__init__(self, alg=..., sig=..., ver=..., cert_info=...,
pub_area=...), passing self as an extra positional argument to the
keyword-only parent constructor. -/
def TPMX509AttestationStatement.init
    (alg : DualMember) (sig : Bytes) (ver : String)
    (cert_info : Bytes) (pub_area : Bytes) (x5c : List X5CElem) :
    Except PyErr TPMX509AttestationStatement :=
  match TPMAttestationStatement.init [()] alg sig ver cert_info pub_area with
  | .error e => .error e
  | .ok parent => .ok ⟨parent, x5c⟩

/-- TPMECDAAAttestationStatement.__init__ (types.py lines 1447-1452): it
likewise passes self as an extra positional argument to the keyword-only
parent constructor. -/
def TPMECDAAAttestationStatement.init
    (alg : DualMember) (sig : Bytes) (ver : String)
    (cert_info : Bytes) (pub_area : Bytes) (ecdaa_key_id : Bytes) :
    Except PyErr TPMECDAAAttestationStatement :=
  match TPMAttestationStatement.init [()] alg sig ver cert_info pub_area with
  | .error e => .error e
  | .ok parent => .ok ⟨parent, ecdaa_key_id⟩

/-- CredentialData (registrars.py lines 22-26). -/
structure CredentialData where
  credential_public_key : CredentialPublicKey
  signature_count : Int
  user_entity : Option PublicKeyCredentialUserEntity
  rp_entity : Option PublicKeyCredentialRpEntity

/-- CredentialsRegistrar.register_creation_options (registrars.py lines
31-34): the default implementation raises UnimplementedError. -/
def CredentialsRegistrar.register_creation_options
    (options : CredentialCreationOptions) : Except PyErr Bool :=
  .error (.unimplementedError ("Must implement register_creation_options"))

/-- CredentialsRegistrar.register_request_options (registrars.py lines
36-39): the default implementation raises UnimplementedError. -/
def CredentialsRegistrar.register_request_options
    (options : CredentialRequestOptions) : Except PyErr Bool :=
  .error (.unimplementedError ("Must implement register_request_options"))

/-- CredentialsRegistrar.register_credential_creation (registrars.py lines
41-49): the default implementation raises UnimplementedError. -/
def CredentialsRegistrar.register_credential_creation
    (credential : PublicKeyCredential) (att : AttestationObject)
    (att_type : AttestationType) (user : PublicKeyCredentialUserEntity)
    (rp : PublicKeyCredentialRpEntity) (trusted_path : Option TrustedPath) :
    Except PyErr Bool :=
  .error (.unimplementedError ("Must implement register_credential_creation"))

/-- CredentialsRegistrar.register_credential_request (registrars.py lines
51-57): the default implementation raises UnimplementedError. -/
def CredentialsRegistrar.register_credential_request
    (credential : PublicKeyCredential) (authenticator_data : AuthenticatorData)
    (user : PublicKeyCredentialUserEntity) (rp : PublicKeyCredentialRpEntity) :
    Except PyErr Bool :=
  .error (.unimplementedError ("Must implement register_credential_request"))

/-- CredentialsRegistrar.get_credential_data (registrars.py lines 59-62):
the default implementation raises UnimplementedError. -/
def CredentialsRegistrar.get_credential_data
    (credential_id : Bytes) : Except PyErr (Option CredentialData) :=
  .error (.unimplementedError ("Must implement get_credential_data"))

/-- CredentialsRegistrar.check_user_owns_credential (registrars.py lines
64-67): the default implementation raises UnimplementedError. -/
def CredentialsRegistrar.check_user_owns_credential
    (user_handle : Bytes) (credential_id : Bytes) :
    Except PyErr (Option Bool) :=
  .error (.unimplementedError ("Must implement check_user_owns_credential"))

/-- The signature base string the spec prescribes for FIDO-U2F (section
4.5 step 4): a leading zero byte, the relying-party-ID hash, the
client-data hash, the credential identifier bytes, and the uncompressed
point 0x04, x, y. -/
def fido_u2f_spec_payload (rp_id_hash : Bytes) (client_data_hash : Bytes)
    (credential_id : Bytes) (x : Bytes) (y : Bytes) : Bytes :=
  [0] ++ rp_id_hash ++ client_data_hash ++ credential_id ++ ([4] ++ x ++ y)

/-- A COSE algorithm member used by the concrete examples: Value.ES256. -/
def algES256 : DualMember := .valueMem ("ES256") (-7)

/-- A parsed certificate over P-256 used by the concrete examples. -/
def certP256 : Certificate := ⟨.ec .secp256r1 [1] [2]⟩

/-- A crypto oracle for the concrete examples: PEM parsing always yields
certP256 and every signature verifies. -/
def cryptoFix : Crypto := ⟨fun _ => .ok certP256, fun _ _ _ _ => true⟩

/-- An EC2 credential public key whose coordinates match certP256. -/
def cpkEC2Fix : CredentialPublicKey :=
  .ec2 ⟨⟨.valueMem ("EC2") 2, none, none, none, none⟩, [1], [2], .valueMem ("P_256") 1⟩

/-- Attested credential data with identifier bytes [5, 6] and the EC2 key. -/
def acdFix : AttestedCredentialData := ⟨[7, 7], 2, [5, 6], some cpkEC2Fix, none⟩

/-- An attestation object carrying acdFix. -/
def attObjFix : AttestationObject :=
  ⟨⟨[3, 3], 0, 0, some acdFix⟩, .FIDO_U2F, .noneStmt ⟨none, none⟩⟩

/-- An attestation object whose authenticator data has no attested
credential data. -/
def attObjNoAcdFix : AttestationObject :=
  ⟨⟨[3, 3], 0, 0, none⟩, .FIDO_U2F, .noneStmt ⟨none, none⟩⟩

/-- A fido-u2f statement with a single (PEM bytes) certificate entry. -/
def fidoStmtFix : FIDOU2FAttestationStatement := ⟨algES256, [9], [.bytes [1]]⟩

/-- An android-key statement whose x5c holds a parsed certificate object. -/
def androidStmtFix : AndroidKeyAttestationStatement := ⟨algES256, [9], [.cert certP256]⟩

/-- A packed statement for the unimplemented-dispatch example. -/
def packedStmtFix : PackedAttestationStatement := ⟨algES256, [9]⟩

/-- Claim C1: the spec says attest on a well-formed fido-u2f statement
verifies att_stmt.sig over the payload 0x00, rp_id_hash,
client_data_hash, credential_id bytes, 0x04 with x and y.  The code
instead binds the whole AttestedCredentialData object on line 67, so at a
fully well-formed input the byte concatenation raises TypeError for every
behaviour of the signature-verification oracle, the claimed payload is
never built, and no signature is checked.  This contradicts the
declared payload (fido_u2f_spec_payload) and the documented error kinds. -/
theorem c1_fido_u2f_payload_type_error :
    ∀ (v : CertPublicKey → Bytes → Bytes → Option HashAlg → Bool),
      attest ⟨fun _ => .ok certP256, v⟩ (.fidoU2F fidoStmtFix) attObjFix [] [8] =
        .error (.typeError ("cannot concatenate AttestedCredentialData to bytes")) ∧
      fido_u2f_spec_payload [3, 3] [8] acdFix.credential_id [1] [2] =
        [0, 3, 3, 8, 5, 6, 4, 1, 2] := by
  intro v
  exact ⟨rfl, rfl⟩

/-- Claim C2: the spec says every implemented attest variant that completes
without raising returns a pair (AttestationType, TrustedPath).  The
android-key verifier has no return statement: at an input that passes all
of its checks the call completes with the Python value None (modelled as
.ok none) rather than a pair. -/
theorem c2_android_key_success_returns_python_none :
    attest cryptoFix (.androidKey androidStmtFix) attObjFix [1] [2] = .ok none := by
  rfl

/-- Claim C3 counterexample: indexing a dual enumeration with a numeric
registry code does not succeed: the int branch of the container getitem
delegates to Enum indexing, which looks members up by name, so
COSEAlgorithmIdentifier indexed with -7 raises KeyError; likewise
indexing with a symbolic name string that differs from the Python member
identifier (COSEKeyOperation indexed with sign) raises KeyError. -/
theorem c3_counterexample_numeric_indexing_fails :
    NameValueEnumsContainer.getitem COSEAlgorithmIdentifier (.intKey (-7)) =
      .error (.keyError ("-7")) ∧
    NameValueEnumsContainer.getitem COSEKeyOperation (.strKey ("sign")) =
      .error (.keyError ("sign")) := by
  exact ⟨rfl, rfl⟩

/-- Claim C3 (amended): for every member of the five dual name/value
enumerations, calling with the symbolic name string yields the Name
member, calling with the numeric registry code yields the Value member of
the same entry, and indexing with the Python member identifier yields the
Name member; but indexing with the numeric code always raises KeyError,
because Enum indexing looks members up by name. -/
theorem c3_dual_enum_lookup_amended :
    ∀ E ∈ dualNameValueEnums, ∀ e ∈ E.entries,
      NameValueEnumsContainer.call E (.strKey e.2.1) = .ok (.nameMem e.1 e.2.1) ∧
      NameValueEnumsContainer.call E (.intKey e.2.2) = .ok (.valueMem e.1 e.2.2) ∧
      NameValueEnumsContainer.getitem E (.strKey e.1) = .ok (.nameMem e.1 e.2.1) ∧
      NameValueEnumsContainer.getitem E (.intKey e.2.2) =
        .error (.keyError (toString e.2.2)) := by
  decide

/-- Witness for claim C3, at the ES256 entry of COSEAlgorithmIdentifier. -/
theorem c3_dual_enum_lookup_amended_witness :
    NameValueEnumsContainer.call COSEAlgorithmIdentifier (.strKey ("ES256")) =
      .ok (.nameMem ("ES256") ("ES256")) ∧
    NameValueEnumsContainer.call COSEAlgorithmIdentifier (.intKey (-7)) =
      .ok (.valueMem ("ES256") (-7)) ∧
    NameValueEnumsContainer.getitem COSEAlgorithmIdentifier (.strKey ("ES256")) =
      .ok (.nameMem ("ES256") ("ES256")) ∧
    NameValueEnumsContainer.getitem COSEAlgorithmIdentifier (.intKey (-7)) =
      .error (.keyError ("-7")) :=
  c3_dual_enum_lookup_amended COSEAlgorithmIdentifier (by decide)
    ("ES256", "ES256", -7) (by decide)

/-- Claim C4: attest on every attestation statement whose runtime class is
not one of the three registered ones fails with UnimplementedError whose
message names the concrete statement type, for every crypto oracle and
every other argument. -/
theorem c4_unregistered_variants_unimplemented
    (C : Crypto) (s : AttestationStatement) (att_obj : AttestationObject)
    (auth_data client_data_hash : Bytes)
    (h : s.isRegistered = false) :
    attest C s att_obj auth_data client_data_hash =
      .error (.unimplementedError (s.typeRepr ++ " verification unimplemented")) := by
  cases s <;> first
    | rfl
    | simp [AttestationStatement.isRegistered] at h

/-- Witness for claim C4, at a packed attestation statement. -/
theorem c4_unregistered_variants_unimplemented_witness :
    attest cryptoFix (.packed packedStmtFix) attObjFix [] [] =
      .error (.unimplementedError
        ("<class webauthn_rp.types.PackedAttestationStatement> verification unimplemented")) :=
  c4_unregistered_variants_unimplemented cryptoFix (.packed packedStmtFix)
    attObjFix [] [] rfl

/-- Claim C5: every one of the six CredentialsRegistrar operations, on
every input, defaults to UnimplementedError naming that operation. -/
theorem c5_registrar_defaults_unimplemented :
    (∀ options, CredentialsRegistrar.register_creation_options options =
      .error (.unimplementedError ("Must implement register_creation_options"))) ∧
    (∀ options, CredentialsRegistrar.register_request_options options =
      .error (.unimplementedError ("Must implement register_request_options"))) ∧
    (∀ credential att att_type user rp trusted_path,
      CredentialsRegistrar.register_credential_creation credential att att_type
          user rp trusted_path =
        .error (.unimplementedError ("Must implement register_credential_creation"))) ∧
    (∀ credential authenticator_data user rp,
      CredentialsRegistrar.register_credential_request credential
          authenticator_data user rp =
        .error (.unimplementedError ("Must implement register_credential_request"))) ∧
    (∀ credential_id, CredentialsRegistrar.get_credential_data credential_id =
      .error (.unimplementedError ("Must implement get_credential_data"))) ∧
    (∀ user_handle credential_id,
      CredentialsRegistrar.check_user_owns_credential user_handle credential_id =
        .error (.unimplementedError ("Must implement check_user_owns_credential"))) := by
  exact ⟨fun _ => rfl, fun _ => rfl, fun _ _ _ _ _ _ => rfl, fun _ _ _ _ => rfl,
    fun _ => rfl, fun _ _ => rfl⟩

/-- Claim C6: attest on a fido-u2f statement whose x5c does not hold
exactly one certificate fails with ValidationError, for every crypto
oracle (so before any certificate parsing or signature check) and every
other argument. -/
theorem c6_fido_u2f_certificate_count_validation
    (C : Crypto) (att_stmt : FIDOU2FAttestationStatement)
    (att_obj : AttestationObject) (auth_data client_data_hash : Bytes)
    (h : att_stmt.x5c.length ≠ 1) :
    attest C (.fidoU2F att_stmt) att_obj auth_data client_data_hash =
      .error (.validationError
        ("FIDO U2F verification failed: must have a single X.509 certificate")) := by
  show attest_fido_u2f C att_stmt att_obj auth_data client_data_hash = _
  unfold attest_fido_u2f
  rw [if_pos h]

/-- Witness for claim C6, at an empty x5c. -/
theorem c6_fido_u2f_certificate_count_validation_witness :
    attest cryptoFix (.fidoU2F ⟨algES256, [9], []⟩) attObjFix [] [] =
      .error (.validationError
        ("FIDO U2F verification failed: must have a single X.509 certificate")) :=
  c6_fido_u2f_certificate_count_validation cryptoFix ⟨algES256, [9], []⟩
    attObjFix [] [] (by decide)

/-- Claim C7: attest on a NoneAttestationStatement returns exactly the
pair (AttestationType.NONE, absent trust path), for every crypto oracle
and every value of the other three arguments. -/
theorem c7_none_attestation_returns_none_type :
    ∀ (C : Crypto) (s : NoneAttestationStatement) (att_obj : AttestationObject)
      (auth_data client_data_hash : Bytes),
      attest C (.noneStmt s) att_obj auth_data client_data_hash =
        .ok (some (.NONE, none)) := by
  intro C s att_obj auth_data client_data_hash
  rfl

/-- Claim C8: constructing a TPMX509AttestationStatement or a
TPMECDAAAttestationStatement fails with TypeError on every input, because
each passes self as an extra positional argument to the keyword-only
parent constructor. -/
theorem c8_tpm_subtype_constructors_type_error :
    (∀ (alg : DualMember) (sig : Bytes) (ver : String) (cert_info : Bytes)
      (pub_area : Bytes) (x5c : List X5CElem),
      TPMX509AttestationStatement.init alg sig ver cert_info pub_area x5c =
        .error (.typeError ("init takes 1 positional argument but more were given"))) ∧
    (∀ (alg : DualMember) (sig : Bytes) (ver : String) (cert_info : Bytes)
      (pub_area : Bytes) (ecdaa_key_id : Bytes),
      TPMECDAAAttestationStatement.init alg sig ver cert_info pub_area ecdaa_key_id =
        .error (.typeError ("init takes 1 positional argument but more were given"))) := by
  exact ⟨fun _ _ _ _ _ _ => rfl, fun _ _ _ _ _ _ => rfl⟩

/-- Claim C9: constructing or indexing any of the five dual enumerations
with a boolean key raises the invalid-key KeyError, because the dispatch
requires the runtime type to be exactly int or exactly str. -/
theorem c9_bool_keys_rejected :
    ∀ E ∈ dualNameValueEnums, ∀ b : Bool,
      NameValueEnumsContainer.call E (.boolKey b) =
        .error (.keyError ("Invalid key " ++ pyKeyRepr (.boolKey b))) ∧
      NameValueEnumsContainer.getitem E (.boolKey b) =
        .error (.keyError ("Invalid key " ++ pyKeyRepr (.boolKey b))) := by
  intro E hE b
  exact ⟨rfl, rfl⟩

/-- Witness for claim C9, at COSEKeyType and the boolean True. -/
theorem c9_bool_keys_rejected_witness :
    NameValueEnumsContainer.call COSEKeyType (.boolKey true) =
      .error (.keyError ("Invalid key True")) ∧
    NameValueEnumsContainer.getitem COSEKeyType (.boolKey true) =
      .error (.keyError ("Invalid key True")) :=
  c9_bool_keys_rejected COSEKeyType (by decide) true

/-- Claim C10: attest on a fido-u2f statement whose single certificate
parses to a P-256 elliptic-curve key fails with AttributeError (not one
of the four documented error kinds) when the attested credential data is
absent, or present with an absent credential public key. -/
theorem c10_missing_attested_credential_data_attribute_error
    (C : Crypto) (att_stmt : FIDOU2FAttestationStatement)
    (att_obj : AttestationObject) (auth_data client_data_hash : Bytes)
    (elem : X5CElem) (cert : Certificate) (px qy : Bytes)
    (hx : att_stmt.x5c = [elem])
    (hld : load_pem_elem C elem = .ok cert)
    (hpk : cert.public_key = .ec .secp256r1 px qy)
    (hacd : att_obj.auth_data.attested_credential_data = none ∨
      (∃ acd, att_obj.auth_data.attested_credential_data = some acd ∧
        acd.credential_public_key = none)) :
    ∃ m, attest C (.fidoU2F att_stmt) att_obj auth_data client_data_hash =
      .error (.attributeError m) := by
  show ∃ m, attest_fido_u2f C att_stmt att_obj auth_data client_data_hash =
    .error (.attributeError m)
  unfold attest_fido_u2f
  rw [hx]
  simp only [List.length_cons, List.length_nil, List.getD, List.get?, hld,
    Option.getD_some]
  rw [hpk]
  simp only [CertPublicKey.isEllipticCurve, CertPublicKey.curveIsSecp256r1]
  rcases hacd with h | ⟨acd, hsome, hnone⟩
  · rw [h]
    exact ⟨_, rfl⟩
  · rw [hsome]
    simp only [pyAttrX, hnone]
    exact ⟨_, rfl⟩

/-- Witness for claim C10, at an attestation object lacking attested
credential data. -/
theorem c10_missing_attested_credential_data_attribute_error_witness :
    ∃ m, attest cryptoFix (.fidoU2F fidoStmtFix) attObjNoAcdFix [] [] =
      .error (.attributeError m) :=
  c10_missing_attested_credential_data_attribute_error cryptoFix fidoStmtFix
    attObjNoAcdFix [] [] (.bytes [1]) certP256 [1] [2] rfl rfl rfl (Or.inl rfl)
